import Mathlib

/-!
Verification development for the home-robot mapping/planning stack.

Shallow embedding of:
  - `src/home_robot/home_robot/motion/rrt_connect.py` (class RRTConnect)
  - `src/home_robot/home_robot/agent/multitask/robot_agent.py` (RobotAgent,
    publish_obs)
  - `src/home_robot/home_robot/utils/point_cloud.py` (numpy_to_pcd,
    pcd_to_numpy)

Python methods become Lean functions with the mutable object state passed
explicitly; calls into collaborator objects (the robot driver, the sampling
space, the inherited RRT single-tree pass) become function parameters; a
Python `raise` becomes `Except.error` carrying the exception text.
-/

namespace HomeRobot

/-! ## Planner data types

`PlanResult`, `TreeNode` and the single-tree `step_planner` pass live in
`motion/base.py` / `motion/rrt.py`, which are not part of the sources here;
they are modelled from the spec and from how `rrt_connect.py` and
`robot_agent.py` use them. -/

/-- Modelled from the spec: the failure taxonomy
`PlanFailure{InvalidStart|InvalidGoal|Exhausted|Timeout|NoFrontierReachable}`
of section 7. -/
inductive FailureReason where
  | invalidStart
  | invalidGoal
  | exhausted
  | timeout
  | noFrontierReachable
  deriving DecidableEq, Repr

/-- Modelled from the spec: the `PlanResult` value returned by the planner
(`motion/base.py` is not among the sources). It carries a success flag, the
trajectory (a pose sequence, empty on failure) and an optional failure tag;
the source call `PlanResult(False)` passes only the success flag, so both
other fields take their default values (`[]` / `none`). -/
structure PlanResult (Pose : Type) where
  success : Bool
  trajectory : List Pose
  reason : Option FailureReason
  deriving DecidableEq, Repr

/-- Modelled from the spec: a configuration-space tree node, "a pose (x, y,
heading) plus a back-pointer to its parent in the tree it belongs to"
(section 3); `TreeNode(start)` in the source passes no parent. The parent is
an index into the owning tree's node list. -/
structure TreeNode (Pose : Type) where
  state : Pose
  parent : Option Nat
  deriving DecidableEq, Repr

/-- The mutable fields of an `RRTConnect` object, as set by
`RRTConnect.reset` (rrt_connect.py lines 31-35). -/
structure RRTConnectState (Pose : Type) where
  start_time : Option Nat
  goal_state : Option Pose
  nodes_fwd : List (TreeNode Pose)
  nodes_rev : List (TreeNode Pose)
  deriving DecidableEq, Repr

namespace RRTConnect

/-- Embedding of `RRTConnect.reset` (rrt_connect.py lines 31-35): clears the timer, the
goal and both node lists. Called from `__init__` only. -/
def reset (Pose : Type) : RRTConnectState Pose :=
  { start_time := none, goal_state := none, nodes_fwd := [], nodes_rev := [] }

/-- The body of `for i in range(self.max_iter): pass` in
`RRTConnect.plan` (rrt_connect.py lines 61-65): each iteration executes
only `pass`, so the loop leaves the object state unchanged. -/
def connectLoop {Pose : Type} (max_iter : Nat) (s : RRTConnectState Pose) :
    RRTConnectState Pose :=
  (List.range max_iter).foldl (fun acc _ => acc) s

/-- Embedding of `RRTConnect.plan` (rrt_connect.py lines 37-68). Parameters stand for
the collaborator calls: `validate` for `self.validate` (the configuration
validity check inherited from `RRT`), `stepPlanner` for
`self.step_planner(force_sample_goal=True, nodes=self.nodes_fwd)` (the
single-tree RRT pass inherited from `RRT`, which may grow the node list it
is given), `now` for `time.time()`. Returns the Python result — a normal
return or a raised exception — together with the updated object state. -/
def plan {Pose : Type} (validate : Pose → Bool)
    (stepPlanner : List (TreeNode Pose) → PlanResult Pose × List (TreeNode Pose))
    (max_iter : Nat) (now : Nat) (s : RRTConnectState Pose)
    (start goal : Pose) :
    Except String (PlanResult Pose) × RRTConnectState Pose :=
  let s1 : RRTConnectState Pose := { s with start_time := some now }
  if validate start = false then
    (Except.ok { success := false, trajectory := [], reason := none }, s1)
  else
    let s2 : RRTConnectState Pose :=
      { s1 with nodes_fwd := s1.nodes_fwd ++ [{ state := start, parent := none }] }
    if validate goal = false then
      (Except.ok { success := false, trajectory := [], reason := none }, s2)
    else
      let s3 : RRTConnectState Pose :=
        { s2 with nodes_rev := s2.nodes_rev ++ [{ state := goal, parent := none }] }
      let res := (stepPlanner s3.nodes_fwd).1
      let s4 : RRTConnectState Pose :=
        { s3 with nodes_fwd := (stepPlanner s3.nodes_fwd).2 }
      if res.success then
        (Except.ok res, s4)
      else
        (Except.error ("NotImplementedError: RRT-connect not yet implemented"),
         connectLoop max_iter s4)

/-- The failure tag carried by a plan call's outcome: the `reason` field of
a normally returned result, `none` if an exception was raised. -/
def resultReason {Pose : Type} :
    Except String (PlanResult Pose) → Option FailureReason
  | Except.ok r => r.reason
  | Except.error _ => none

end RRTConnect

/-! ## Robot agent (robot_agent.py)

The robot driver calls (`get_base_pose`, `navigate_to`) and the navigation
space's `is_valid` are collaborator calls; they appear as function
parameters. `poseAfter k` is the base pose reported after `k` backward
nudges have been executed. -/

/-- A relative base-motion command, as passed to
`self.robot.nav.navigate_to([x, y, theta], relative=True)`. -/
inductive NavCommand where
  | relative (x y theta : ℚ)
  deriving DecidableEq, Repr

/-- The back-up retry loop of `RobotAgent.move_to_any_instance`
(robot_agent.py lines 206-215): while the start pose is invalid and retries
remain, send the relative command `[-0.1, 0, 0]`, re-read the base pose,
re-check validity and decrement the retry counter. Returns the final
validity flag together with the list of motion commands issued. -/
def backupLoop {Pose : Type} (is_valid : Pose → Bool) (poseAfter : Nat → Pose) :
    Bool → Nat → Nat → Bool × List NavCommand
  | valid, _, 0 => (valid, [])
  | true, _, _ + 1 => (true, [])
  | false, k, retries + 1 =>
    let next :=
      backupLoop is_valid poseAfter (is_valid (poseAfter (k + 1))) (k + 1) retries
    (next.1, NavCommand.relative (-(1 / 10)) 0 0 :: next.2)

/-- The start-validation phase of `RobotAgent.move_to_any_instance`
(robot_agent.py lines 206-220): run the back-up loop with 5 retries and
raise `RuntimeError("Invalid start state!")` if the start is still invalid
afterwards; otherwise proceed (returning the commands issued so far). -/
def move_to_any_instance_start {Pose : Type} (is_valid : Pose → Bool)
    (poseAfter : Nat → Pose) : Except String (List NavCommand) :=
  let r := backupLoop is_valid poseAfter (is_valid (poseAfter 0)) 0 5
  if r.1 = false then Except.error ("RuntimeError: Invalid start state!")
  else Except.ok r.2

/-- One iteration of the goal-selection part of `RobotAgent.run_exploration`
(robot_agent.py lines 420-437): with `random_goals` the code samples a
frontier pose but never assigns the local `res`, so the following
`if res.success:` reads an unassigned local on the first iteration (an
`UnboundLocalError`); without `random_goals`, `res` is the result of
`plan_to_frontier` and a failed plan is simply skipped. `res` is the value
the local variable holds on entry (`none` = not yet assigned); the returned
result is the one consulted by the success check. -/
def run_exploration_step {Pose : Type} (random_goals : Bool)
    (frontierPlan : PlanResult Pose) (res : Option (PlanResult Pose)) :
    Except String (PlanResult Pose) :=
  let res1 := if random_goals then res else some frontierPlan
  match res1 with
  | none =>
    Except.error ("UnboundLocalError: local variable res referenced before assignment")
  | some r => Except.ok r

/-- A persistent object instance as used by `robot_agent.py`: category id
(`int(instance.category_id.item())`), aggregate score, 3D axis-aligned
bounds (a (3, 2) tensor: per-axis min/max) and the multi-view image
embedding returned by `get_image_embedding`. -/
structure Instance where
  category_id : Int
  score : ℚ
  bounds : (ℚ × ℚ) × (ℚ × ℚ) × (ℚ × ℚ)
  embedding : List ℚ
  deriving DecidableEq, Repr

/-- The membership test of `RobotAgent.filter_matches` (robot_agent.py line
331): `i not in self._object_attempts or self._object_attempts[i] <
threshold`. The `_object_attempts` dict is a partial map from instance
index to failure count. -/
def object_attempt_lt (attempts : Nat → Option Nat) (i threshold : Nat) : Bool :=
  match attempts i with
  | none => true
  | some c => c < threshold

/-- Embedding of `RobotAgent.filter_matches` (robot_agent.py lines 327-333): keep, in
order, the (index, instance) pairs not yet attempted `threshold` times. -/
def filter_matches (attempts : Nat → Option Nat) :
    List (Nat × Instance) → Nat → List (Nat × Instance)
  | [], _ => []
  | (i, ins) :: rest, threshold =>
    if object_attempt_lt attempts i threshold then
      (i, ins) :: filter_matches attempts rest threshold
    else
      filter_matches attempts rest threshold

/-- The failure bookkeeping of `RobotAgent.move_to_any_instance`
(robot_agent.py lines 252-255), run when every sampled goal for instance
`i` failed to yield a plan: `self._object_attempts[i] = 1` if absent, else
`+= 1`. -/
def record_object_attempt (attempts : Nat → Option Nat) (i : Nat) :
    Nat → Option Nat :=
  fun j =>
    if j = i then
      match attempts i with
      | none => some 1
      | some c => some (c + 1)
    else attempts j

/-- The inner goal loop of `RobotAgent.move_to_any_instance`
(robot_agent.py lines 229-248) for one instance: `res` starts as `None`;
for each sampled goal, an invalid goal is skipped (`continue`), otherwise
`res = self.planner.plan(start, goal)` and a successful plan breaks out.
Returns the final `res` together with whether the loop broke (Python's
`for`/`else` runs the failure bookkeeping exactly when it did not).
`planOf` stands for the collaborator call `self.planner.plan(start, .)`
(the start pose is fixed at this point). -/
def try_goals {Pose : Type} (is_valid : Pose → Bool)
    (planOf : Pose → PlanResult Pose) :
    Option (PlanResult Pose) → List Pose → Option (PlanResult Pose) × Bool
  | res, [] => (res, false)
  | res, g :: rest =>
    if is_valid g = false then try_goals is_valid planOf res rest
    else
      if (planOf g).success then (some (planOf g), true)
      else try_goals is_valid planOf (some (planOf g)) rest

/-- The outer instance loop of `RobotAgent.move_to_any_instance`
(robot_agent.py lines 223-257): for each (index, instance) match, run the
inner goal loop from a fresh `res = None`; on no break, bump the
instance's failure count (the `for`/`else`); on a successful `res`, stop.
Returns the final `res` and the updated attempts dictionary. `goalsOf i`
stands for the finite pose sequence drawn from
`self.space.sample_near_mask(mask_from_bounds(match.bounds), radius_m=0.7)`
for instance `i`. -/
def move_to_instances {Pose : Type} (is_valid : Pose → Bool)
    (planOf : Pose → PlanResult Pose) (goalsOf : Nat → List Pose) :
    Option (PlanResult Pose) → (Nat → Option Nat) → List (Nat × Instance) →
      Option (PlanResult Pose) × (Nat → Option Nat)
  | res, attempts, [] => (res, attempts)
  | _, attempts, (i, _) :: rest =>
    let t := try_goals is_valid planOf none (goalsOf i)
    let attempts1 := if t.2 then attempts else record_object_attempt attempts i
    match t.1 with
    | some r =>
      if r.success then (some r, attempts1)
      else move_to_instances is_valid planOf goalsOf (some r) attempts1 rest
    | none => move_to_instances is_valid planOf goalsOf none attempts1 rest

/-- Embedding of the whole of `RobotAgent.move_to_any_instance`
(robot_agent.py lines 202-274): the back-up start validation (raising
`RuntimeError` when the start stays invalid), then the instance loop, then
`return True` on a successful plan (trajectory execution is a robot
collaborator call with no bearing on the return value) and `return False`
otherwise. The returned pair is the Python return value together with the
updated `_object_attempts` dictionary. -/
def move_to_any_instance {Pose : Type} (is_valid : Pose → Bool)
    (poseAfter : Nat → Pose) (planOf : Pose → PlanResult Pose)
    (goalsOf : Nat → List Pose) (attempts : Nat → Option Nat)
    (ms : List (Nat × Instance)) :
    Except String (Bool × (Nat → Option Nat)) :=
  match move_to_any_instance_start is_valid poseAfter with
  | Except.error e => Except.error e
  | Except.ok _ =>
    let t := move_to_instances is_valid planOf goalsOf none attempts ms
    match t.1 with
    | some res =>
      if res.success then Except.ok (true, t.2) else Except.ok (false, t.2)
    | none => Except.ok (false, t.2)

/-- Python's `str.lower()`: lower-case every character. (Lean's own
`String.toLower` is extensionally the same map but does not reduce in the
kernel, so the embedding lowers at the character-list level.) -/
def lowerStr (s : String) : String := String.mk (s.data.map Char.toLower)

/-- The scan loop of `RobotAgent.get_found_instances_by_class`
(robot_agent.py lines 320-324): enumerate the instances from index `i`
upward and keep those whose class name equals the goal case-insensitively
(`name.lower() == goal.lower()`). -/
def collect_matching_instances (class_name_for_id : Int → String)
    (goal : String) : Nat → List Instance → List (Nat × Instance)
  | _, [] => []
  | i, ins :: rest =>
    if lowerStr (class_name_for_id ins.category_id) = lowerStr goal then
      (i, ins) :: collect_matching_instances class_name_for_id goal (i + 1) rest
    else
      collect_matching_instances class_name_for_id goal (i + 1) rest

/-- Embedding of `RobotAgent.get_found_instances_by_class` (robot_agent.py lines
311-325): `None` goal returns `[]`; otherwise collect the case-insensitive
class matches and pass them through `filter_matches`.
`class_name_for_id` stands for the collaborator call
`self.semantic_sensor.get_class_name_for_id`. -/
def get_found_instances_by_class (class_name_for_id : Int → String)
    (attempts : Nat → Option Nat) (instances : List Instance) :
    Option String → Nat → List (Nat × Instance)
  | none, _ => []
  | some g, threshold =>
    filter_matches attempts
      (collect_matching_instances class_name_for_id g 0 instances) threshold

/-- The dot product `torch.matmul(goal_emb, img_emb).item()` over exact
rationals. -/
def dotList (a b : List ℚ) : ℚ := (List.zipWith (fun x y => x * y) a b).sum

/-- The selection loop of `RobotAgent.choose_best_goal_instance`
(robot_agent.py lines 361-379): `best_score` starts at `-inf`, so the first
instance always replaces the empty accumulator; afterwards an instance
replaces the incumbent only on a strictly greater score. The accumulator
holds `(best_instance, best_score)`; `none` is the initial
`best_instance = None` state. -/
def choose_best_aux (score : Instance → ℚ) :
    List Instance → Option (Instance × ℚ) → Option (Instance × ℚ)
  | [], best => best
  | ins :: rest, best =>
    let s := score ins
    let best1 :=
      match best with
      | none => some (ins, s)
      | some (b, bs) => if s > bs then some (ins, s) else some (b, bs)
    choose_best_aux score rest best1

/-- Embedding of `RobotAgent.choose_best_goal_instance` (robot_agent.py lines 355-380):
score each instance by the dot product of the encoded goal text with the
instance's image embedding, keep the strictly-best, return `None` when
there are no instances. `embOf` stands for the collaborator call
`instance.get_image_embedding(aggregation_method="mean", normalize=...)`
(`mapping/instance.py` is not among the sources) and `goal_emb` for
`self.encode_text(goal)` (an external encoder). -/
def choose_best_goal_instance (embOf : Instance → List ℚ) (goal_emb : List ℚ)
    (instances : List Instance) : Option Instance :=
  (choose_best_aux (fun ins => dotList goal_emb (embOf ins)) instances none).map
    Prod.fst

/-- Reference selector used to state what the loop computes: scan left to
right keeping the incumbent unless strictly beaten. -/
def pickBest (score : Instance → ℚ) : Instance → List Instance → Instance
  | b, [] => b
  | b, x :: xs =>
    if score x > score b then pickBest score x xs else pickBest score b xs

/-! ## Snapshot publication (publish_obs, robot_agent.py lines 33-89) -/

/-- A value stored in the pickled snapshot dict: a tensor (tracked by its
shape), a string, or a Python bool. -/
inductive ObsValue where
  | tensor (shape : List Nat)
  | str (s : String)
  | flag (b : Bool)
  deriving DecidableEq, Repr

/-- The second dimension of `torch.stack([ins.get_image_embedding(...) for
ins in instances])`: the (uniform) embedding length; the empty branch of
the source hardcodes `torch.zeros(0, 512)`. -/
def stacked_embed_dim : List Instance → Nat
  | [] => 512
  | ins :: _ => ins.embedding.length

/-- The snapshot record built and pickled by `publish_obs` (robot_agent.py
lines 33-89), as an ordered key/value list. Tensor-valued inputs are
tracked by shape. With instances present, `box_bounds` is the stack of the
per-instance (3, 2) bounds, `box_names` the stacked category ids
unsqueezed to (n, 1), `box_scores` a length-n vector and `box_embeddings`
the stacked embeddings; with no instances the four entries are the
explicit zero-length tensors of the source's `else` branch. -/
def publish_obs (instances : List Instance)
    (rgb depth instance_image instance_classes instance_scores
     camera_pose camera_K obstacles explored : List Nat)
    (xyz_frame current_state : String) : List (String × ObsValue) :=
  let n := instances.length
  let box_bounds := if 0 < n then ObsValue.tensor [n, 3, 2]
                    else ObsValue.tensor [0, 3, 2]
  let box_names := if 0 < n then ObsValue.tensor [n, 1]
                   else ObsValue.tensor [0, 1]
  let box_scores := if 0 < n then ObsValue.tensor [n] else ObsValue.tensor [0]
  let box_embeddings := if 0 < n then ObsValue.tensor [n, stacked_embed_dim instances]
                        else ObsValue.tensor [0, 512]
  [("limited_obs", ObsValue.flag false),
   ("rgb", ObsValue.tensor rgb),
   ("depth", ObsValue.tensor depth),
   ("instance_image", ObsValue.tensor instance_image),
   ("instance_classes", ObsValue.tensor instance_classes),
   ("instance_scores", ObsValue.tensor instance_scores),
   ("camera_pose", ObsValue.tensor camera_pose),
   ("camera_K", ObsValue.tensor camera_K),
   ("xyz_frame", ObsValue.str xyz_frame),
   ("box_bounds", box_bounds),
   ("box_names", box_names),
   ("box_scores", box_scores),
   ("box_embeddings", box_embeddings),
   ("obstacles", ObsValue.tensor obstacles),
   ("explored", ObsValue.tensor explored),
   ("current_state", ObsValue.str current_state)]

/-- The snapshot fields listed by the spec (section 6, "Persisted state"),
written with the source's key names: RGB, depth, instance map, instance
class/score, camera pose/intrinsics, 3D instance bounding boxes + names +
scores + embeddings, 2D obstacle/explored masks, and a state label. -/
def spec_snapshot_fields : List String :=
  ["rgb", "depth", "instance_image", "instance_classes", "instance_scores",
   "camera_pose", "camera_K", "box_bounds", "box_names", "box_scores",
   "box_embeddings", "obstacles", "explored", "current_state"]

/-! ## Point-cloud conversion (utils/point_cloud.py) -/

/-- Embedding of `reshape(-1, 3)` on a flat array: group the entries into consecutive
triples. -/
def reshape_rows3 : List ℚ → List (ℚ × ℚ × ℚ)
  | x :: y :: z :: rest => (x, y, z) :: reshape_rows3 rest
  | _ => []

/-- An Open3D point cloud: `pcd.points` and `pcd.colors`, each a sequence
of 3-vectors (colors in [0, 1]). -/
structure PointCloud where
  points : List (ℚ × ℚ × ℚ)
  colors : List (ℚ × ℚ × ℚ)
  deriving DecidableEq, Repr

/-- Embedding of `numpy_to_pcd` (point_cloud.py lines 18-27): reshape `xyz` to (n, 3)
and store it as the points; when `rgb` is given, reshape it to (n, 3),
divide by 255 and store it as the colors. Arithmetic is exact rational. -/
def numpy_to_pcd (xyz : List ℚ) (rgb : Option (List ℚ)) : PointCloud :=
  { points := reshape_rows3 xyz,
    colors :=
      match rgb with
      | none => []
      | some r =>
        (reshape_rows3 r).map (fun c => (c.1 / 255, c.2.1 / 255, c.2.2 / 255)) }

/-- Embedding of `pcd_to_numpy` (point_cloud.py lines 30-34): return the points and the
colors multiplied by 255. -/
def pcd_to_numpy (pcd : PointCloud) :
    List (ℚ × ℚ × ℚ) × List (ℚ × ℚ × ℚ) :=
  (pcd.points, pcd.colors.map (fun c => (c.1 * 255, c.2.1 * 255, c.2.2 * 255)))

/-! ## Concrete example inputs used by witnesses -/

/-- A concrete instance with trivial contents. -/
def instance_example : Instance :=
  { category_id := 0, score := 0, bounds := ((0, 0), (0, 0), (0, 0)),
    embedding := [] }

/-- A concrete attempts dictionary: instance 3 has failed twice, nothing
else recorded. -/
def attempts_example : Nat → Option Nat :=
  fun j => if j = 3 then some 2 else none

/-- The no-op iteration loop of `plan` leaves the state unchanged, for any
iteration bound: the loop terminates and does nothing. -/
theorem connectLoop_eq_id {Pose : Type} (max_iter : Nat)
    (s : RRTConnectState Pose) : RRTConnect.connectLoop max_iter s = s := by
  unfold RRTConnect.connectLoop
  induction max_iter with
  | zero => rfl
  | succ n ih =>
    rw [List.range_succ, List.foldl_append]
    simp [ih]

/-- C1: `rrt_connect.py` lines 37-68. Whenever start and goal both pass
`validate` but the single forward RRT pass does not succeed — as it cannot
for a fully-enclosed unreachable goal — `plan` does not return a
`PlanFailure{Exhausted}` result: after its bounded no-op iteration loop it
raises `NotImplementedError`. (The claim's termination half is real — the
loop is bounded — but its never-raises half is contradicted.) -/
theorem plan_unreachable_goal_raises {Pose : Type} (validate : Pose → Bool)
    (stepPlanner : List (TreeNode Pose) → PlanResult Pose × List (TreeNode Pose))
    (max_iter now : Nat) (s : RRTConnectState Pose) (start goal : Pose)
    (hs : validate start = true) (hg : validate goal = true)
    (hfail : ∀ nodes, ((stepPlanner nodes).1).success = false) :
    (RRTConnect.plan validate stepPlanner max_iter now s start goal).1 =
      Except.error ("NotImplementedError: RRT-connect not yet implemented") := by
  unfold RRTConnect.plan
  simp [hs, hg, hfail]

/-- Witness for C1: a concrete planning problem (poses are naturals, every
pose valid, the forward pass always fails) on which `plan` raises. -/
theorem plan_unreachable_goal_raises_witness :
    (@RRTConnect.plan Nat (fun _ => true)
        (fun nodes => ({ success := false, trajectory := [], reason := none }, nodes))
        20 0 (RRTConnect.reset Nat) 0 7).1 =
      Except.error ("NotImplementedError: RRT-connect not yet implemented") :=
  plan_unreachable_goal_raises (fun _ => true)
    (fun nodes => ({ success := false, trajectory := [], reason := none }, nodes))
    20 0 (RRTConnect.reset Nat) 0 7 rfl rfl (fun _ => rfl)

/-- C2, counterexample: with poses as naturals and `validate p = (p ≠ 0)`,
the call `plan 0 1` has an invalid start and the call `plan 1 0` has a valid
start and an invalid goal, yet neither outcome carries an `InvalidStart` or
`InvalidGoal` tag: both early returns are the bare `PlanResult(False)`, so
the claimed tagging does not exist. -/
theorem plan_reject_untagged_counterexample :
    RRTConnect.resultReason
        (@RRTConnect.plan Nat (fun p => p != 0)
          (fun nodes => ({ success := false, trajectory := [], reason := none }, nodes))
          20 0 (RRTConnect.reset Nat) 0 1).1 ≠ some FailureReason.invalidStart ∧
    RRTConnect.resultReason
        (@RRTConnect.plan Nat (fun p => p != 0)
          (fun nodes => ({ success := false, trajectory := [], reason := none }, nodes))
          20 0 (RRTConnect.reset Nat) 1 0).1 ≠ some FailureReason.invalidGoal := by
  constructor <;> decide

/-- C2 as amended: on an invalid start, `plan` immediately returns the
untagged failure `PlanResult(False)` (success = false, empty trajectory, no
reason tag) having touched nothing but the timer; on a valid start and an
invalid goal it returns the same untagged failure value after appending only
the start node to the forward tree. -/
theorem plan_reject_invalid {Pose : Type} (validate : Pose → Bool)
    (stepPlanner : List (TreeNode Pose) → PlanResult Pose × List (TreeNode Pose))
    (max_iter now : Nat) (s : RRTConnectState Pose) (start goal : Pose) :
    (validate start = false →
      RRTConnect.plan validate stepPlanner max_iter now s start goal =
        (Except.ok { success := false, trajectory := [], reason := none },
         { s with start_time := some now })) ∧
    (validate start = true → validate goal = false →
      RRTConnect.plan validate stepPlanner max_iter now s start goal =
        (Except.ok { success := false, trajectory := [], reason := none },
         { s with start_time := some now,
                  nodes_fwd := s.nodes_fwd ++ [{ state := start, parent := none }] })) := by
  constructor
  · intro hs
    unfold RRTConnect.plan
    simp [hs]
  · intro hs hg
    unfold RRTConnect.plan
    simp [hs, hg]

/-- Witness for C2's amended theorem: both rejection branches evaluated on
the concrete problem of the counterexample. -/
theorem plan_reject_invalid_witness :
    (@RRTConnect.plan Nat (fun p => p != 0)
        (fun nodes => ({ success := false, trajectory := [], reason := none }, nodes))
        20 0 (RRTConnect.reset Nat) 0 1 =
      (Except.ok { success := false, trajectory := [], reason := none },
       { start_time := some 0, goal_state := none, nodes_fwd := [], nodes_rev := [] })) ∧
    (@RRTConnect.plan Nat (fun p => p != 0)
        (fun nodes => ({ success := false, trajectory := [], reason := none }, nodes))
        20 0 (RRTConnect.reset Nat) 1 0 =
      (Except.ok { success := false, trajectory := [], reason := none },
       { start_time := some 0, goal_state := none,
         nodes_fwd := [{ state := 1, parent := none }], nodes_rev := [] })) := by
  constructor
  · exact (plan_reject_invalid (fun p => p != 0)
      (fun nodes => ({ success := false, trajectory := [], reason := none }, nodes))
      20 0 (RRTConnect.reset Nat) 0 1).1 rfl
  · exact (plan_reject_invalid (fun p => p != 0)
      (fun nodes => ({ success := false, trajectory := [], reason := none }, nodes))
      20 0 (RRTConnect.reset Nat) 1 0).2 rfl rfl

/-- C4: the trees are not call-scoped. `reset` runs only in `__init__`, and
`plan` appends to the stored lists without clearing them: after a first call
whose goal is invalid (poses are naturals, `validate p = (p ≠ 0)`, start 1,
goal 0) the forward tree still holds the start node, so the next `plan` call
begins with a non-empty `nodes_fwd` — contradicting both the claim and
`plan`'s own docstring "creates a new tree". -/
theorem plan_leaks_nodes_across_calls :
    (@RRTConnect.plan Nat (fun p => p != 0)
        (fun nodes => ({ success := false, trajectory := [], reason := none }, nodes))
        20 0 (RRTConnect.reset Nat) 1 0).2.nodes_fwd =
      [{ state := 1, parent := none }] ∧
    (@RRTConnect.plan Nat (fun p => p != 0)
        (fun nodes => ({ success := false, trajectory := [], reason := none }, nodes))
        20 0 (RRTConnect.reset Nat) 1 0).2.nodes_fwd ≠ [] := by
  constructor <;> decide

/-- The back-up loop issues at most `retries` motion commands. -/
theorem backupLoop_length_le {Pose : Type} (is_valid : Pose → Bool)
    (poseAfter : Nat → Pose) :
    ∀ (r k : Nat) (valid : Bool),
      (backupLoop is_valid poseAfter valid k r).2.length ≤ r := by
  intro r
  induction r with
  | zero => intro k valid; simp [backupLoop]
  | succ n ih =>
    intro k valid
    cases valid with
    | true => simp [backupLoop]
    | false =>
      simp only [backupLoop, List.length_cons]
      exact Nat.succ_le_succ (ih (k + 1) (is_valid (poseAfter (k + 1))))

/-- Every command the back-up loop issues is the fixed relative backward
nudge `[-0.1, 0, 0]`. -/
theorem backupLoop_cmds_fixed {Pose : Type} (is_valid : Pose → Bool)
    (poseAfter : Nat → Pose) :
    ∀ (r k : Nat) (valid : Bool) (c : NavCommand),
      c ∈ (backupLoop is_valid poseAfter valid k r).2 →
      c = NavCommand.relative (-(1 / 10)) 0 0 := by
  intro r
  induction r with
  | zero => intro k valid c hc; simp [backupLoop] at hc
  | succ n ih =>
    intro k valid c hc
    cases valid with
    | true => simp [backupLoop] at hc
    | false =>
      simp only [backupLoop, List.mem_cons] at hc
      rcases hc with hc | hc
      · exact hc
      · exact ih (k + 1) (is_valid (poseAfter (k + 1))) c hc

/-- C3, counterexample: a single failed attempt does crash the policy. With
every pose invalid, `move_to_any_instance` exhausts its 5 back-up retries
and raises `RuntimeError("Invalid start state!")` (robot_agent.py lines
218-220); and with the `random_goals` flag set, the first exploration
iteration of `run_exploration` reads the never-assigned local `res`
(robot_agent.py lines 420-436) and raises. -/
theorem exploration_raises_counterexample :
    @move_to_any_instance_start Nat (fun _ => false) (fun _ => 0) =
      Except.error ("RuntimeError: Invalid start state!") ∧
    @run_exploration_step Nat true
        { success := false, trajectory := [], reason := none } none =
      Except.error ("UnboundLocalError: local variable res referenced before assignment") := by
  exact ⟨rfl, rfl⟩

/-- When every plan attempt fails, the inner goal loop never breaks and
its final `res` is `None` or a failed result. -/
theorem try_goals_all_fail {Pose : Type} (is_valid : Pose → Bool)
    (planOf : Pose → PlanResult Pose)
    (hfail : ∀ g, (planOf g).success = false) :
    ∀ (gs : List Pose) (res : Option (PlanResult Pose)),
      (∀ r, res = some r → r.success = false) →
      (try_goals is_valid planOf res gs).2 = false ∧
      (∀ r, (try_goals is_valid planOf res gs).1 = some r →
        r.success = false) := by
  intro gs
  induction gs with
  | nil => intro res hres; exact ⟨rfl, hres⟩
  | cons g rest ih =>
    intro res hres
    by_cases hv : is_valid g = false
    · simp only [try_goals, if_pos hv]
      exact ih res hres
    · simp only [try_goals, if_neg hv, hfail g, Bool.false_eq_true, if_false]
      refine ih (some (planOf g)) ?_
      intro r hr
      injection hr with hr
      rw [← hr]
      exact hfail g
/-- When every plan attempt fails, the instance loop ends with no
successful result. -/
theorem move_to_instances_all_fail {Pose : Type} (is_valid : Pose → Bool)
    (planOf : Pose → PlanResult Pose) (goalsOf : Nat → List Pose)
    (hfail : ∀ g, (planOf g).success = false) :
    ∀ (ms : List (Nat × Instance)) (res : Option (PlanResult Pose))
      (attempts : Nat → Option Nat),
      (∀ r, res = some r → r.success = false) →
      (∀ r, (move_to_instances is_valid planOf goalsOf res attempts ms).1 =
        some r → r.success = false) := by
  intro ms
  induction ms with
  | nil => intro res attempts hres; exact hres
  | cons p rest ih =>
    intro res attempts hres
    obtain ⟨i, ins⟩ := p
    have ht := try_goals_all_fail is_valid planOf hfail (goalsOf i) none
      (fun r hr => nomatch hr)
    simp only [move_to_instances]
    cases h1 : (try_goals is_valid planOf none (goalsOf i)).1 with
    | none =>
      simp only [h1]
      exact ih none _ (fun r hr => nomatch hr)
    | some r =>
      have hrf := ht.2 r h1
      simp only [h1, hrf, Bool.false_eq_true, if_false]
      refine ih (some r) _ ?_
      intro r1 hr1
      injection hr1 with hr1
      rw [← hr1]
      exact hrf
/-- C3 as amended: with `random_goals` unset, one exploration iteration
absorbs any frontier-plan result without raising (a failed plan is merely
consulted and skipped); a `move_to_any_instance` call whose per-instance
planning attempts all fail returns `False` (inconclusive) rather than
raising, exhausting its instance list and recording the failures;
`move_to_any_instance` raises `RuntimeError` exactly when the start is
still invalid once the back-up retry budget is exhausted; and with
`random_goals` set, the iteration raises on the unassigned local. -/
theorem exploration_failure_containment {Pose : Type} (is_valid : Pose → Bool)
    (poseAfter : Nat → Pose) (planOf : Pose → PlanResult Pose)
    (goalsOf : Nat → List Pose) (attempts : Nat → Option Nat)
    (ms : List (Nat × Instance)) (frontierPlan : PlanResult Pose)
    (res : Option (PlanResult Pose)) :
    run_exploration_step false frontierPlan res = Except.ok frontierPlan ∧
    ((backupLoop is_valid poseAfter (is_valid (poseAfter 0)) 0 5).1 = true →
      (∀ g, (planOf g).success = false) →
      move_to_any_instance is_valid poseAfter planOf goalsOf attempts ms =
        Except.ok (false,
          (move_to_instances is_valid planOf goalsOf none attempts ms).2)) ∧
    (move_to_any_instance is_valid poseAfter planOf goalsOf attempts ms =
        Except.error ("RuntimeError: Invalid start state!") ↔
      (backupLoop is_valid poseAfter (is_valid (poseAfter 0)) 0 5).1 = false) ∧
    run_exploration_step true frontierPlan none =
      (Except.error ("UnboundLocalError: local variable res referenced before assignment") :
        Except String (PlanResult Pose)) := by
  refine ⟨rfl, ?_, ?_, rfl⟩
  · intro hvalid hfail
    have hstart : move_to_any_instance_start is_valid poseAfter =
        Except.ok
          (backupLoop is_valid poseAfter (is_valid (poseAfter 0)) 0 5).2 := by
      simp [move_to_any_instance_start, hvalid]
    unfold move_to_any_instance
    rw [hstart]
    cases h1 : (move_to_instances is_valid planOf goalsOf none attempts
        ms).1 with
    | none => simp [h1]
    | some r =>
      have hrf := move_to_instances_all_fail is_valid planOf goalsOf hfail
        ms none attempts (fun r1 hr1 => nomatch hr1) r h1
      simp [h1, hrf]
  · cases hb : (backupLoop is_valid poseAfter (is_valid (poseAfter 0)) 0 5).1
    · constructor
      · intro _; rfl
      · intro _
        simp [move_to_any_instance, move_to_any_instance_start, hb]
    · constructor
      · intro h
        exfalso
        have hstart : move_to_any_instance_start is_valid poseAfter =
            Except.ok
              (backupLoop is_valid poseAfter (is_valid (poseAfter 0)) 0
                5).2 := by
          simp [move_to_any_instance_start, hb]
        unfold move_to_any_instance at h
        rw [hstart] at h
        cases h1 : (move_to_instances is_valid planOf goalsOf none attempts
            ms).1 with
        | none => simp [h1] at h
        | some r =>
          by_cases hs : r.success = true
          · simp [h1, hs] at h
          · simp [h1, hs] at h
      · intro habs; exact Bool.noConfusion habs

/-- Witness for C3's amended theorem: a concrete one-instance run in which
the start is valid, the single sampled goal is valid, and the plan fails —
the call returns `False` without raising and the failure is recorded. -/
theorem exploration_failure_containment_witness :
    @move_to_any_instance Nat (fun _ => true) (fun _ => 0)
        (fun _ => { success := false, trajectory := [], reason := none })
        (fun _ => [0]) (fun _ => none) [(0, instance_example)] =
      Except.ok (false,
        (@move_to_instances Nat (fun _ => true)
          (fun _ => { success := false, trajectory := [], reason := none })
          (fun _ => [0]) none (fun _ => none) [(0, instance_example)]).2) :=
  (@exploration_failure_containment Nat (fun _ => true) (fun _ => 0)
    (fun _ => { success := false, trajectory := [], reason := none })
    (fun _ => [0]) (fun _ => none) [(0, instance_example)]
    { success := false, trajectory := [], reason := none } none).2.1
    rfl (fun _ => rfl)

/-- C5: the corrective maneuver is bounded and fixed. The back-up loop of
`move_to_any_instance` issues at most 5 motion commands, each of them the
fixed relative backward move `[-0.1, 0, 0]`, re-checking validity after
each; and if the start is still invalid once the retries are exhausted,
the call declares failure (raises `RuntimeError`). -/
theorem backup_retries_bounded {Pose : Type} (is_valid : Pose → Bool)
    (poseAfter : Nat → Pose) :
    (backupLoop is_valid poseAfter (is_valid (poseAfter 0)) 0 5).2.length ≤ 5 ∧
    (∀ c ∈ (backupLoop is_valid poseAfter (is_valid (poseAfter 0)) 0 5).2,
      c = NavCommand.relative (-(1 / 10)) 0 0) ∧
    ((backupLoop is_valid poseAfter (is_valid (poseAfter 0)) 0 5).1 = false →
      move_to_any_instance_start is_valid poseAfter =
        Except.error ("RuntimeError: Invalid start state!")) := by
  refine ⟨backupLoop_length_le is_valid poseAfter 5 0 _,
         fun c hc => backupLoop_cmds_fixed is_valid poseAfter 5 0 _ c hc, ?_⟩
  intro h
  unfold move_to_any_instance_start
  simp [h]

/-- Witness for C5: the bound and the failure declaration evaluated on a
concrete always-invalid validity predicate. -/
theorem backup_retries_bounded_witness :
    (@backupLoop Nat (fun _ => false) (fun _ => 0) false 0 5).2.length ≤ 5 ∧
    @move_to_any_instance_start Nat (fun _ => false) (fun _ => 0) =
      Except.error ("RuntimeError: Invalid start state!") :=
  ⟨(backup_retries_bounded (fun _ => false) (fun _ => 0)).1,
   (backup_retries_bounded (fun _ => false) (fun _ => 0)).2.2 rfl⟩

/-- The function `filter_matches` is the order-preserving filter by the attempts test. -/
theorem filter_matches_eq_filter (attempts : Nat → Option Nat)
    (ms : List (Nat × Instance)) (n : Nat) :
    filter_matches attempts ms n =
      ms.filter (fun p => object_attempt_lt attempts p.1 n) := by
  induction ms with
  | nil => rfl
  | cons p rest ih =>
    cases p with
    | mk i ins =>
      by_cases h : object_attempt_lt attempts i n = true
      · simp [filter_matches, List.filter, h, ih]
      · simp only [Bool.not_eq_true] at h
        simp [filter_matches, List.filter, h, ih]

/-- C6: `filter_matches` returns exactly the pairs whose index has no
recorded failure count or a count strictly below the threshold, in input
order; an index attempted at least `n` times is suppressed; and a fully
failed attempt on instance `i` sets its count to 1 when absent and
increments it by exactly 1 otherwise, touching no other index. -/
theorem filter_and_attempts_spec (attempts : Nat → Option Nat) :
    (∀ (ms : List (Nat × Instance)) (n : Nat),
      filter_matches attempts ms n =
        ms.filter (fun p => object_attempt_lt attempts p.1 n)) ∧
    (∀ (ms : List (Nat × Instance)) (n i c : Nat) (ins : Instance),
      attempts i = some c → n ≤ c →
      (i, ins) ∉ filter_matches attempts ms n) ∧
    (∀ i, record_object_attempt attempts i i =
      some ((attempts i).getD 0 + 1)) ∧
    (∀ i j, j ≠ i → record_object_attempt attempts i j = attempts j) := by
  refine ⟨filter_matches_eq_filter attempts, ?_, ?_, ?_⟩
  · intro ms n i c ins hc hnc hmem
    rw [filter_matches_eq_filter] at hmem
    have hp := List.of_mem_filter hmem
    simp only [object_attempt_lt, hc] at hp
    have : c < n := by simpa using hp
    exact absurd hnc (Nat.not_le_of_lt this)
  · intro i
    unfold record_object_attempt
    cases h : attempts i <;> simp [h]
  · intro i j hji
    unfold record_object_attempt
    simp [hji]

/-- Witness for C6: on the concrete attempts dictionary, instance 3 (two
recorded failures) is suppressed at threshold 2; a new failure on it moves
its count to 3 and leaves instance 4 untouched. -/
theorem filter_and_attempts_spec_witness :
    (3, instance_example) ∉
      filter_matches attempts_example
        [(3, instance_example), (4, instance_example)] 2 ∧
    record_object_attempt attempts_example 3 3 = some 3 ∧
    record_object_attempt attempts_example 3 4 = attempts_example 4 := by
  refine ⟨(filter_and_attempts_spec attempts_example).2.1 _ 2 3 2
      instance_example rfl (by decide), ?_,
    (filter_and_attempts_spec attempts_example).2.2.2 3 4 (by decide)⟩
  have h := (filter_and_attempts_spec attempts_example).2.2.1 3
  rw [h]
  rfl

/-- Membership in the collected class matches implies the case-insensitive
name match. -/
theorem collect_matching_instances_mem (class_name_for_id : Int → String)
    (g : String) :
    ∀ (l : List Instance) (k : Nat) (p : Nat × Instance),
      p ∈ collect_matching_instances class_name_for_id g k l →
      lowerStr (class_name_for_id p.2.category_id) = lowerStr g := by
  intro l
  induction l with
  | nil => intro k p hp; simp [collect_matching_instances] at hp
  | cons ins rest ih =>
    intro k p hp
    by_cases h : lowerStr (class_name_for_id ins.category_id) = lowerStr g
    · simp only [collect_matching_instances, if_pos h, List.mem_cons] at hp
      rcases hp with hp | hp
      · rw [hp]; exact h
      · exact ih (k + 1) p hp
    · simp only [collect_matching_instances, if_neg h] at hp
      exact ih (k + 1) p hp

/-- If no instance's class name matches, nothing is collected. -/
theorem collect_matching_instances_nil (class_name_for_id : Int → String)
    (g : String) :
    ∀ (l : List Instance) (k : Nat),
      (∀ ins ∈ l, lowerStr (class_name_for_id ins.category_id) ≠ lowerStr g) →
      collect_matching_instances class_name_for_id g k l = [] := by
  intro l
  induction l with
  | nil => intro k _; rfl
  | cons ins rest ih =>
    intro k hnone
    have h := hnone ins (List.mem_cons_self ins rest)
    simp only [collect_matching_instances, if_neg h]
    exact ih (k + 1) fun x hx => hnone x (List.mem_cons_of_mem ins hx)

/-- C7: the instance query is total and conservative. A `None` goal yields
`[]`; every returned pair's class name equals the goal case-insensitively;
and a goal matching no stored instance yields `[]` rather than an error. -/
theorem get_found_instances_spec (class_name_for_id : Int → String)
    (attempts : Nat → Option Nat) (instances : List Instance) (n : Nat) :
    get_found_instances_by_class class_name_for_id attempts instances none n
      = [] ∧
    (∀ (g : String) (p : Nat × Instance),
      p ∈ get_found_instances_by_class class_name_for_id attempts instances
            (some g) n →
      lowerStr (class_name_for_id p.2.category_id) = lowerStr g) ∧
    (∀ (g : String),
      (∀ ins ∈ instances,
        lowerStr (class_name_for_id ins.category_id) ≠ lowerStr g) →
      get_found_instances_by_class class_name_for_id attempts instances
          (some g) n = []) := by
  refine ⟨rfl, ?_, ?_⟩
  · intro g p hp
    simp only [get_found_instances_by_class] at hp
    rw [filter_matches_eq_filter] at hp
    exact collect_matching_instances_mem class_name_for_id g instances 0 p
      (List.mem_of_mem_filter hp)
  · intro g hnone
    simp only [get_found_instances_by_class]
    rw [collect_matching_instances_nil class_name_for_id g instances 0 hnone]
    rfl

/-- Witness for C7: the query evaluated concretely — a `None` goal on a
one-instance memory, and a goal matching nothing. -/
theorem get_found_instances_spec_witness :
    get_found_instances_by_class (fun _ => "chair") attempts_example
      [instance_example] none 0 = [] ∧
    get_found_instances_by_class (fun _ => "chair") attempts_example
      [instance_example] (some ("table")) 0 = [] := by
  refine ⟨(get_found_instances_spec (fun _ => "chair") attempts_example
      [instance_example] 0).1, ?_⟩
  exact (get_found_instances_spec (fun _ => "chair") attempts_example
      [instance_example] 0).2.2 ("table") (by intro ins _; decide)

/-- The incumbent's score never decreases along the selection scan. -/
theorem pickBest_le (score : Instance → ℚ) :
    ∀ (l : List Instance) (b : Instance),
      score b ≤ score (pickBest score b l) := by
  intro l
  induction l with
  | nil => intro b; exact le_refl _
  | cons x xs ih =>
    intro b
    by_cases h : score x > score b
    · simp only [pickBest, if_pos h]
      exact le_trans (le_of_lt h) (ih x)
    · simp only [pickBest, if_neg h]
      exact ih b

/-- The scanned list splits around the selected element: everything before
it scores strictly less (it was not replaced by them), everything after it
scores at most as much (it beat or tied them). -/
theorem pickBest_split (score : Instance → ℚ) :
    ∀ (l : List Instance) (b : Instance),
      ∃ l₁ l₂, b :: l = l₁ ++ pickBest score b l :: l₂ ∧
        (∀ x ∈ l₁, score x < score (pickBest score b l)) ∧
        (∀ x ∈ l₂, score x ≤ score (pickBest score b l)) := by
  intro l
  induction l with
  | nil =>
    intro b
    exact ⟨[], [], rfl, by simp, by simp⟩
  | cons x xs ih =>
    intro b
    by_cases h : score x > score b
    · obtain ⟨m₁, m₂, heq, h₁, h₂⟩ := ih x
      refine ⟨b :: m₁, m₂, ?_, ?_, ?_⟩
      · simp only [pickBest, if_pos h, List.cons_append]
        rw [← heq]
      · intro y hy
        simp only [pickBest, if_pos h]
        rcases List.mem_cons.mp hy with hy | hy
        · rw [hy]
          exact lt_of_lt_of_le h (pickBest_le score xs x)
        · exact h₁ y hy
      · intro y hy
        simp only [pickBest, if_pos h]
        exact h₂ y hy
    · have hxb : score x ≤ score b := not_lt.mp h
      obtain ⟨m₁, m₂, heq, h₁, h₂⟩ := ih b
      cases m₁ with
      | nil =>
        simp only [List.nil_append] at heq
        injection heq with hb hm
        refine ⟨[], x :: xs, ?_, by simp, ?_⟩
        · simp only [pickBest, if_neg h, List.nil_append, ← hb]
        · intro y hy
          simp only [pickBest, if_neg h]
          rcases List.mem_cons.mp hy with hy | hy
          · rw [hy, ← hb]
            exact hxb
          · rw [hm] at hy
            exact h₂ y hy
      | cons a m₁' =>
        simp only [List.cons_append] at heq
        injection heq with hb hxs
        refine ⟨b :: x :: m₁', m₂, ?_, ?_, ?_⟩
        · simp only [pickBest, if_neg h, List.cons_append]
          rw [← hxs]
        · intro y hy
          simp only [pickBest, if_neg h]
          have hbp : score b < score (pickBest score b xs) := by
            have h' := h₁ a (List.mem_cons_self a m₁')
            rwa [← hb] at h'
          rcases List.mem_cons.mp hy with hy | hy
          · rw [hy]; exact hbp
          · rcases List.mem_cons.mp hy with hy | hy
            · rw [hy]
              exact lt_of_le_of_lt hxb hbp
            · exact h₁ y (List.mem_cons_of_mem a hy)
        · intro y hy
          simp only [pickBest, if_neg h]
          exact h₂ y hy

/-- With the accumulator holding an instance and its own score, the
selection loop computes `pickBest`. -/
theorem choose_best_aux_pick (score : Instance → ℚ) :
    ∀ (l : List Instance) (b : Instance),
      choose_best_aux score l (some (b, score b)) =
        some (pickBest score b l, score (pickBest score b l)) := by
  intro l
  induction l with
  | nil => intro b; rfl
  | cons x xs ih =>
    intro x_1
    by_cases h : score x > score x_1
    · simp only [choose_best_aux, pickBest, if_pos h]
      exact ih x
    · simp only [choose_best_aux, pickBest, if_neg h]
      exact ih x_1

/-- On a non-empty instance list, the selection loop returns `pickBest`
seeded with the first instance (the first instance always replaces the
`-inf` initial score). -/
theorem choose_best_aux_cons (score : Instance → ℚ) (b : Instance)
    (rest : List Instance) :
    (choose_best_aux score (b :: rest) none).map Prod.fst =
      some (pickBest score b rest) := by
  have h1 : choose_best_aux score (b :: rest) none =
      choose_best_aux score rest (some (b, score b)) := rfl
  rw [h1, choose_best_aux_pick score rest b]
  rfl

/-- C9: `choose_best_goal_instance` returns `None` exactly on an empty
instance set; on a non-empty set it returns the earliest instance whose
embedding attains the maximum dot product with the encoded goal — the
instances before it score strictly less, those after it score at most as
much. -/
theorem choose_best_goal_instance_spec (embOf : Instance → List ℚ)
    (goal_emb : List ℚ) (instances : List Instance) :
    (choose_best_goal_instance embOf goal_emb instances = none ↔
      instances = []) ∧
    (∀ (b : Instance) (rest : List Instance), instances = b :: rest →
      ∃ best l₁ l₂,
        choose_best_goal_instance embOf goal_emb instances = some best ∧
        instances = l₁ ++ best :: l₂ ∧
        (∀ x ∈ l₁,
          dotList goal_emb (embOf x) < dotList goal_emb (embOf best)) ∧
        (∀ x ∈ l₂,
          dotList goal_emb (embOf x) ≤ dotList goal_emb (embOf best))) := by
  constructor
  · cases instances with
    | nil => exact ⟨fun _ => rfl, fun _ => rfl⟩
    | cons b rest =>
      have hch : choose_best_goal_instance embOf goal_emb (b :: rest) =
          some (pickBest (fun ins => dotList goal_emb (embOf ins)) b rest) :=
        choose_best_aux_cons (fun ins => dotList goal_emb (embOf ins)) b rest
      constructor
      · intro h
        rw [hch] at h
        exact Option.noConfusion h
      · intro h
        exact absurd h (List.cons_ne_nil b rest)
  · intro b rest hinst
    subst hinst
    have hch : choose_best_goal_instance embOf goal_emb (b :: rest) =
        some (pickBest (fun ins => dotList goal_emb (embOf ins)) b rest) :=
      choose_best_aux_cons (fun ins => dotList goal_emb (embOf ins)) b rest
    obtain ⟨l₁, l₂, heq, h₁, h₂⟩ :=
      pickBest_split (fun ins => dotList goal_emb (embOf ins)) rest b
    exact ⟨pickBest (fun ins => dotList goal_emb (embOf ins)) b rest, l₁, l₂,
      hch, heq, h₁, h₂⟩

/-- Witness for C9: the selection evaluated on an empty and on a singleton
instance memory. -/
theorem choose_best_goal_instance_spec_witness :
    choose_best_goal_instance (fun ins => ins.embedding) [1] [] = none ∧
    (∃ best l₁ l₂,
      choose_best_goal_instance (fun ins => ins.embedding) [1]
          [instance_example] = some best ∧
      [instance_example] = l₁ ++ best :: l₂ ∧
      (∀ x ∈ l₁, dotList [1] x.embedding < dotList [1] best.embedding) ∧
      (∀ x ∈ l₂, dotList [1] x.embedding ≤ dotList [1] best.embedding)) :=
  ⟨(choose_best_goal_instance_spec (fun ins => ins.embedding) [1] []).1.mpr rfl,
   (choose_best_goal_instance_spec (fun ins => ins.embedding) [1]
      [instance_example]).2 instance_example [] rfl⟩

/-- C8, counterexample: the concrete snapshot record of an empty instance
memory carries the keys `limited_obs` and `xyz_frame`, neither of which is
among the fields the spec lists — so the record does not contain exactly
the spec's fields. -/
theorem publish_obs_extra_fields_counterexample :
    "limited_obs" ∈ (publish_obs [] [8] [8] [8] [8] [8] [4, 4] [3, 3] [9, 9]
        [9, 9] "world" "WAITING").map Prod.fst ∧
    "xyz_frame" ∈ (publish_obs [] [8] [8] [8] [8] [8] [4, 4] [3, 3] [9, 9]
        [9, 9] "world" "WAITING").map Prod.fst ∧
    "limited_obs" ∉ spec_snapshot_fields ∧
    "xyz_frame" ∉ spec_snapshot_fields := by
  refine ⟨?_, ?_, ?_, ?_⟩ <;> decide

/-- C8 as amended: every published snapshot record carries, in order, the
fourteen spec-listed fields plus a `limited_obs` flag and an `xyz_frame`
tag; all spec-listed fields are present; and when the instance set is
empty the box bounds/names/scores/embeddings entries are present as
zero-length tensors of shapes (0, 3, 2), (0, 1), (0,), (0, 512) rather
than omitted. -/
theorem publish_obs_fields_spec (instances : List Instance)
    (rgb depth instance_image instance_classes instance_scores
     camera_pose camera_K obstacles explored : List Nat)
    (xyz_frame current_state : String) :
    (publish_obs instances rgb depth instance_image instance_classes
        instance_scores camera_pose camera_K obstacles explored
        xyz_frame current_state).map Prod.fst =
      ["limited_obs", "rgb", "depth", "instance_image", "instance_classes",
       "instance_scores", "camera_pose", "camera_K", "xyz_frame",
       "box_bounds", "box_names", "box_scores", "box_embeddings",
       "obstacles", "explored", "current_state"] ∧
    (∀ k ∈ spec_snapshot_fields,
      k ∈ (publish_obs instances rgb depth instance_image instance_classes
        instance_scores camera_pose camera_K obstacles explored
        xyz_frame current_state).map Prod.fst) ∧
    (instances = [] →
      (publish_obs instances rgb depth instance_image instance_classes
        instance_scores camera_pose camera_K obstacles explored
        xyz_frame current_state).lookup ("box_bounds") =
          some (ObsValue.tensor [0, 3, 2]) ∧
      (publish_obs instances rgb depth instance_image instance_classes
        instance_scores camera_pose camera_K obstacles explored
        xyz_frame current_state).lookup ("box_names") =
          some (ObsValue.tensor [0, 1]) ∧
      (publish_obs instances rgb depth instance_image instance_classes
        instance_scores camera_pose camera_K obstacles explored
        xyz_frame current_state).lookup ("box_scores") =
          some (ObsValue.tensor [0]) ∧
      (publish_obs instances rgb depth instance_image instance_classes
        instance_scores camera_pose camera_K obstacles explored
        xyz_frame current_state).lookup ("box_embeddings") =
          some (ObsValue.tensor [0, 512])) := by
  refine ⟨by simp [publish_obs], ?_, ?_⟩
  · intro k hk
    rw [show (publish_obs instances rgb depth instance_image instance_classes
        instance_scores camera_pose camera_K obstacles explored
        xyz_frame current_state).map Prod.fst =
      ["limited_obs", "rgb", "depth", "instance_image", "instance_classes",
       "instance_scores", "camera_pose", "camera_K", "xyz_frame",
       "box_bounds", "box_names", "box_scores", "box_embeddings",
       "obstacles", "explored", "current_state"] from by simp [publish_obs]]
    fin_cases hk <;> decide
  · intro h
    subst h
    exact ⟨rfl, rfl, rfl, rfl⟩

/-- Witness for C8's amended theorem: the record of an empty instance
memory evaluated concretely. -/
theorem publish_obs_fields_spec_witness :
    "rgb" ∈ (publish_obs [] [8] [8] [8] [8] [8] [4, 4] [3, 3] [9, 9] [9, 9]
        "world" "WAITING").map Prod.fst ∧
    (publish_obs [] [8] [8] [8] [8] [8] [4, 4] [3, 3] [9, 9] [9, 9]
        "world" "WAITING").lookup ("box_embeddings") =
      some (ObsValue.tensor [0, 512]) :=
  ⟨(publish_obs_fields_spec [] [8] [8] [8] [8] [8] [4, 4] [3, 3] [9, 9] [9, 9]
      "world" "WAITING").2.1 ("rgb") (by decide),
   ((publish_obs_fields_spec [] [8] [8] [8] [8] [8] [4, 4] [3, 3] [9, 9] [9, 9]
      "world" "WAITING").2.2 rfl).2.2.2⟩

/-- Scaling the color channels down by 255 and back up by 255 is the
identity over exact rationals. -/
theorem color_scale_round_trip :
    ∀ l : List (ℚ × ℚ × ℚ),
      ((l.map (fun c => (c.1 / 255, c.2.1 / 255, c.2.2 / 255))).map
        (fun c => (c.1 * 255, c.2.1 * 255, c.2.2 * 255))) = l := by
  intro l
  induction l with
  | nil => rfl
  | cons c rest ih =>
    have h255 : (255 : ℚ) ≠ 0 := by norm_num
    simp only [List.map_cons, ih]
    rw [div_mul_cancel₀ _ h255, div_mul_cancel₀ _ h255, div_mul_cancel₀ _ h255]

/-- C10: over exact rational arithmetic the Open3D conversion round-trips.
For a flat xyz array of n 3D points and a flat rgb array of n color
triples, `pcd_to_numpy (numpy_to_pcd xyz rgb)` returns xyz reshaped to
(n, 3) unchanged and rgb (reshaped to (n, 3)) unchanged: the /255 on the
way in cancels against the *255 on the way out. -/
theorem pcd_numpy_round_trip (xyz rgb : List ℚ) (n : Nat)
    (_hx : xyz.length = 3 * n) (_hr : rgb.length = 3 * n) :
    pcd_to_numpy (numpy_to_pcd xyz (some rgb)) =
      (reshape_rows3 xyz, reshape_rows3 rgb) :=
  Prod.ext rfl (color_scale_round_trip (reshape_rows3 rgb))

/-- Witness for C10: a one-point cloud with color (255, 0, 510) round
trips exactly. -/
theorem pcd_numpy_round_trip_witness :
    pcd_to_numpy (numpy_to_pcd [1, 2, 3] (some [255, 0, 510])) =
      ([((1 : ℚ), (2 : ℚ), (3 : ℚ))], [((255 : ℚ), (0 : ℚ), (510 : ℚ))]) := by
  rw [pcd_numpy_round_trip [1, 2, 3] [255, 0, 510] 1 rfl rfl]
  rfl

end HomeRobot
